import Mathlib

/-
  Verification development for the youtube-downloader backend
  (src/api/download.py and src/api/proxy-download.py).

  The two request handlers are embedded shallowly: Python dict values are
  modelled by `PyV`, the extraction dependency (yt_dlp) is an oracle
  parameter, JSON response bodies are association lists, and the HTTP
  side effects (status line, headers, streamed chunks) are recorded in
  result structures.
-/

set_option maxRecDepth 8000

namespace YTDL

/-- Model of a scalar Python value as it appears in the request/response
dicts of this backend: None, a string, or an integer. -/
inductive PyV where
  | pnone
  | pstr (s : String)
  | pint (n : Int)
deriving DecidableEq, Repr

/-- Python truthiness on the modelled values: None is falsy, a string is
truthy iff non-empty, an int is truthy iff nonzero. -/
def PyV.truthy : PyV → Bool
  | .pnone => false
  | .pstr s => decide (s ≠ "")
  | .pint n => decide (n ≠ 0)

/-- Python str() / f-string rendering of a modelled value. -/
def PyV.pyStr : PyV → String
  | .pnone => "None"
  | .pstr s => s
  | .pint n => toString n

/-- The character set of Python's regex class backslash-s and of
str.strip() for Unicode strings: ASCII whitespace, the C0 separators
0x1c-0x1f, NEL, NBSP and the Unicode space separators. -/
def pyIsSpace (c : Char) : Bool :=
  [' ', '\t', '\n', '\r', '\x0b', '\x0c', '\x1c', '\x1d', '\x1e', '\x1f',
   '\x85', '\xa0', '\u1680', '\u2000', '\u2001', '\u2002', '\u2003',
   '\u2004', '\u2005', '\u2006', '\u2007', '\u2008', '\u2009', '\u200a',
   '\u2028', '\u2029', '\u202f', '\u205f', '\u3000'].contains c

/-- Python str.strip(): drop leading and trailing whitespace. -/
def pyStrip (s : String) : String :=
  ⟨((s.data.dropWhile pyIsSpace).reverse.dropWhile pyIsSpace).reverse⟩

/-- The character class kept by the proxy handler's sanitization regex
[^a-zA-Z0-9 backslash-s hyphen underscore dot] (proxy-download.py line 30):
ASCII letters and digits, any regex-whitespace character, hyphen,
underscore and dot. -/
def allowedChar (c : Char) : Bool :=
  ('a' ≤ c && c ≤ 'z') || ('A' ≤ c && c ≤ 'Z') || ('0' ≤ c && c ≤ '9') ||
    pyIsSpace c || c == '-' || c == '_' || c == '.'

/-- The filename sanitization of proxy-download.py line 30: every
character outside `allowedChar` is replaced by an underscore. -/
def sanitizeFilename (s : String) : String :=
  ⟨s.data.map (fun c => if allowedChar c then c else '_')⟩

/-- The character set the specification names for the sanitization:
letters, digits, the space character (only), hyphen, underscore, dot.
Stated from the spec's words, to compare with `allowedChar` from the
source. -/
def specAllowedChar (c : Char) : Bool :=
  ('a' ≤ c && c ≤ 'z') || ('A' ≤ c && c ≤ 'Z') || ('0' ≤ c && c ≤ '9') ||
    c == ' ' || c == '-' || c == '_' || c == '.'

/-
  Model of src/api/download.py.
-/

/-- A format candidate as consumed by download.py: the dict keys the
handler reads, each `none` when the key is absent (dict.get). -/
structure Format where
  ext : Option String
  url : Option String
  vcodec : Option String
  acodec : Option String
  filesize : Option Int
  filesize_approx : Option Int
  format_note : Option String
  height : Option Int
deriving DecidableEq, Repr

/-- Truthiness of fmt.get of the url key: present and non-empty. -/
def Format.urlTruthy (f : Format) : Bool :=
  match f.url with
  | some s => decide (s ≠ "")
  | none => false

/-- Condition of the first selection loop of the info action
(download.py lines 98-101): ext equals mp4, url truthy, vcodec not the
string none. -/
def isMp4Video (f : Format) : Bool :=
  f.ext == some "mp4" && f.urlTruthy && !(f.vcodec == some "none")

/-- Condition of the fallback selection loops (download.py lines 107-109
and 179-181): url truthy and vcodec not the string none. -/
def isVideoFormat (f : Format) : Bool :=
  f.urlTruthy && !(f.vcodec == some "none")

/-- Condition of the first selection loop of the get_download_url action
(download.py lines 169-173): ext equals mp4, url truthy, vcodec and
acodec both not the string none (an absent codec field also passes). -/
def isMp4Full (f : Format) : Bool :=
  f.ext == some "mp4" && f.urlTruthy &&
    !(f.vcodec == some "none") && !(f.acodec == some "none")

/-- Download-url selection of the info action (download.py lines 94-111):
walk the format list from the end, take the first mp4 video format,
else the first video format, else nothing. -/
def selectInfoFormat (fs : List Format) : Option Format :=
  match fs.reverse.find? isMp4Video with
  | some f => some f
  | none => fs.reverse.find? isVideoFormat

/-- The url of the info-action selection (the fmt url of the found
format, None when no format qualifies). -/
def selectInfoUrl (fs : List Format) : Option String :=
  (selectInfoFormat fs).bind Format.url

/-- Format selection of the get_download_url action (download.py lines
165-182): walk the format list from the end, take the first mp4 format
with both codecs, else the first video format, else nothing. -/
def selectDlFormat (fs : List Format) : Option Format :=
  match fs.reverse.find? isMp4Full with
  | some f => some f
  | none => fs.reverse.find? isVideoFormat

/-- The info dict returned by the extractor: the scalar keys the handler
reads (absent keys simply missing from the list), and the formats list
(the formats key, empty when absent). -/
structure Info where
  fields : List (String × PyV)
  formats : List Format
deriving DecidableEq, Repr

/-- Python dict.get with a default on the scalar keys of the info dict:
the stored value when the key is present (even when that value is None),
the default otherwise. -/
def Info.getD (i : Info) (k : String) (d : PyV) : PyV :=
  (i.fields.lookup k).getD d

/-- Python format spec 02d on the nonnegative remainder: pad the decimal
rendering to two digits with a leading zero. -/
def pad2 (n : Int) : String :=
  let s := toString n
  if s.length < 2 then "0" ++ s else s

/-- Duration formatting of download.py lines 85-91, applied to the value
of info.get of duration with default 0: a truthy value is floor-divided
by 60 (Python // and % on an int), rendered as minutes colon
zero-padded seconds; a falsy value gives the string Unknown; a truthy
non-int would raise a TypeError (caught further out). -/
def formatDuration (v : PyV) : Except String String :=
  if v.truthy then
    match v with
    | .pint n => .ok (toString (Int.fdiv n 60) ++ ":" ++ pad2 (Int.fmod n 60))
    | .pstr _ => .error "unsupported operand types for floor division"
    | .pnone => .ok "Unknown"
  else .ok "Unknown"

/-- Duration string computed by the info action for an extractor info
dict (download.py line 85 feeds line 86). -/
def durationOf (i : Info) : Except String String :=
  formatDuration (i.getD "duration" (.pint 0))

/-- A scalar JSON value as produced by json.dumps on the modelled
Python values. -/
inductive JVal where
  | jstr (s : String)
  | jint (n : Int)
  | jbool (b : Bool)
  | jnull
deriving DecidableEq, Repr

/-- A JSON object field: a scalar, or one nested object of scalars (the
video_info object). -/
inductive JField where
  | leaf (v : JVal)
  | node (fields : List (String × JVal))
deriving DecidableEq, Repr

/-- A JSON response body: an association list of fields. -/
abbrev JObj := List (String × JField)

/-- json.dumps of a modelled Python scalar. -/
def PyV.toJ : PyV → JVal
  | .pnone => .jnull
  | .pstr s => .jstr s
  | .pint n => .jint n

/-- A one-key error body, as written on every error path of
download.py. -/
def errObj (m : String) : JObj := [("error", .leaf (.jstr m))]

/-- Whether a character list begins with a given pattern. -/
def hasPre : List Char → List Char → Bool
  | [], _ => true
  | _ :: _, [] => false
  | p :: ps, c :: cs => p == c && hasPre ps cs

/-- Whether a character list contains a given pattern as a contiguous
run. -/
def hasSub (pat : List Char) : List Char → Bool
  | [] => pat.isEmpty
  | c :: cs => hasPre pat (c :: cs) || hasSub pat cs

/-- Membership of a literal substring, Python in on strings. -/
def strContains (s pat : String) : Bool := hasSub pat.data s.data

/-- Python str.lower(), restricted to the ASCII case mapping (sufficient
for matching the ASCII classification patterns). -/
def pyLower (s : String) : String := ⟨s.data.map Char.toLower⟩

/-- Error classification of download.py lines 201-218: the user-facing
message chosen from the DownloadError message. -/
def classifyMsg (m : String) : String :=
  if strContains m "Sign in to confirm" || strContains (pyLower m) "bot" then
    "YouTube is currently blocking automated requests. Please try again in a few minutes, or try a different video."
  else if strContains m "Video unavailable" then
    "This video is unavailable (may be private, deleted, or region-restricted)."
  else if strContains (pyLower m) "age-restricted" then
    "This video is age-restricted and cannot be downloaded without signing in."
  else "YouTube error: " ++ m

/-- Outcome of the call into the extraction dependency, as seen by the
handler: an info dict, a None result, a DownloadError with a message, or
any other exception with a message. -/
inductive Extract where
  | ok (info : Info)
  | noneInfo
  | dlErr (msg : String)
  | exc (msg : String)
deriving DecidableEq, Repr

/-- The video_info object built by the info action (download.py lines
113-121): every key always present; absent scalar fields replaced by
their literal defaults; download_url is the selected format url or — by
Python or — the webpage_url field, defaulting to the request url;
filesize is the filesize field or — by Python or — the filesize_approx
field, defaulting to the string Unknown. -/
def videoInfoObj (url : String) (i : Info) (durationStr : String) :
    List (String × JVal) :=
  let dlv : PyV :=
    match selectInfoUrl i.formats with
    | some u => .pstr u
    | none => .pnone
  let dlFinal : PyV := if dlv.truthy then dlv else i.getD "webpage_url" (.pstr url)
  let fs1 : PyV := i.getD "filesize" .pnone
  let fsFinal : PyV := if fs1.truthy then fs1 else i.getD "filesize_approx" (.pstr "Unknown")
  [("title", (i.getD "title" (.pstr "Unknown Title")).toJ),
   ("duration", .jstr durationStr),
   ("thumbnail", (i.getD "thumbnail" (.pstr "")).toJ),
   ("uploader", (i.getD "uploader" (.pstr "Unknown")).toJ),
   ("video_id", (i.getD "id" (.pstr "")).toJ),
   ("download_url", dlFinal.toJ),
   ("filesize", fsFinal.toJ)]

/-- Body written by the info action (download.py lines 75-128 with the
except clauses of lines 201-225): error bodies for a None info dict, a
DownloadError, any other exception, or a TypeError while formatting the
duration; otherwise the success body with the video_info object. -/
def runInfo (url : String) (ex : Extract) : JObj :=
  match ex with
  | .noneInfo => errObj "Could not extract video information"
  | .dlErr m => errObj (classifyMsg m)
  | .exc m => errObj ("Server error: " ++ m)
  | .ok i =>
    match durationOf i with
    | .error m => errObj ("Server error: " ++ m)
    | .ok d =>
      [("success", .leaf (.jbool true)), ("video_info", .node (videoInfoObj url i d))]

/-- Body written by the get_download_url action (download.py lines
155-199 with the except clauses): error bodies for a None info dict, a
DownloadError, any other exception, or no suitable format; otherwise the
success body built from the selected format. -/
def runGetUrl (ex : Extract) : JObj :=
  match ex with
  | .noneInfo => errObj "Could not extract download URL"
  | .dlErr m => errObj (classifyMsg m)
  | .exc m => errObj ("Server error: " ++ m)
  | .ok i =>
    match selectDlFormat i.formats with
    | none => errObj "No suitable download format found"
    | some f =>
      let fs1 : PyV :=
        match f.filesize with
        | some n => .pint n
        | none => .pnone
      let fs2 : PyV :=
        match f.filesize_approx with
        | some n => .pint n
        | none => .pnone
      let fsFinal : PyV := if fs1.truthy then fs1 else fs2
      [("success", .leaf (.jbool true)),
       ("download_url", .leaf (.jstr (f.url.getD ""))),
       ("filename", .leaf (.jstr ((i.getD "title" (.pstr "video")).pyStr ++ "." ++ f.ext.getD "mp4"))),
       ("filesize", .leaf fsFinal.toJ),
       ("format_note", .leaf (.jstr (f.format_note.getD ""))),
       ("quality", .leaf (match f.height with | some n => .jint n | none => .jstr "Unknown"))]

/-- The regex dot-plus tail after the host slash: at least one character,
the first matched character not a newline. -/
def dotPlusMatch : List Char → Bool
  | [] => false
  | c :: _ => !(c == '\n')

/-- The YouTube URL allow-pattern of download.py line 38, re.match with
optional case-sensitive scheme, optional www dot, one of the two hosts,
a slash and a nonempty dot-plus tail. The three optional or alternative
groups are prefix-deterministic, so sequential stripping is equivalent
to the backtracking regex. -/
def ytMatch (url : String) : Bool :=
  let l0 := url.data
  let s1 := if hasPre "https://".data l0 then l0.drop 8
            else if hasPre "http://".data l0 then l0.drop 7 else l0
  let s2 := if hasPre "www.".data s1 then s1.drop 4 else s1
  if hasPre "youtube.com/".data s2 then dotPlusMatch (s2.drop 12)
  else if hasPre "youtu.be/".data s2 then dotPlusMatch (s2.drop 9)
  else false

/-- The request body seen by download.py: either json.loads raised (a
ValueError caught by the outer except, carrying a message), or a parsed
dict of scalar values. -/
inductive ReqBody where
  | badJson (msg : String)
  | jsonData (data : List (String × PyV))
deriving DecidableEq, Repr

/-- Observable outcome of one do_POST of download.py: the status line
(sent before anything else), the JSON body written (none when nothing is
written), whether the pre-extraction random delay ran, and whether the
extraction dependency was invoked. -/
structure DlResult where
  status : Nat
  body : Option JObj
  slept : Bool
  extracted : Bool
deriving DecidableEq, Repr

/-- The strip call of download.py line 28 on the value of data.get of
url with default the empty string: strings are stripped, a non-string
raises an AttributeError (caught by the outer except). -/
def stripUrl : PyV → Except String String
  | .pstr s => .ok (pyStrip s)
  | .pnone => .error "NoneType object has no attribute strip"
  | .pint _ => .error "int object has no attribute strip"

/-- Body logic of download.py lines 28-199 on a parsed dict: strip the
url (an AttributeError becoming a server error), reject an empty url,
reject a url failing the allow-pattern, then sleep and dispatch on the
action value — info, get_download_url, or silently nothing. -/
def handleData (data : List (String × PyV)) (ex : Extract) : DlResult :=
  match stripUrl ((data.lookup "url").getD (.pstr "")) with
  | .error m => ⟨200, some (errObj ("Server error: " ++ m)), false, false⟩
  | .ok url =>
    if url = "" then ⟨200, some (errObj "URL is required"), false, false⟩
    else if ytMatch url = false then
      ⟨200, some (errObj "Invalid YouTube URL"), false, false⟩
    else
      let action := (data.lookup "action").getD (.pstr "info")
      if action = .pstr "info" then ⟨200, some (runInfo url ex), true, true⟩
      else if action = .pstr "get_download_url" then
        ⟨200, some (runGetUrl ex), true, true⟩
      else ⟨200, none, true, false⟩

/-- do_POST of download.py: the 200 status line and headers are sent
unconditionally first (lines 15-20); a JSON parse failure reaches the
generic except clause and writes a server error. -/
def doPOST (req : ReqBody) (ex : Extract) : DlResult :=
  match req with
  | .badJson m => ⟨200, some (errObj ("Server error: " ++ m)), false, false⟩
  | .jsonData data => handleData data ex

/-
  Model of src/api/proxy-download.py.
-/

/-- The request body seen by proxy-download.py: a JSON dict, or — when
json.loads raises — the parse_qs form dict mapping each key to its list
of values. -/
inductive PReq where
  | jsonBody (data : List (String × PyV))
  | formBody (pairs : List (String × List String))
deriving DecidableEq, Repr

/-- The upstream GET observed by the proxy: a response with a status, an
optional Content-Length header and a chunk stream, or a requests
exception with a message. -/
inductive Upstream where
  | resp (status : Nat) (contentLength : Option String) (chunks : List (List Nat))
  | exc (msg : String)
deriving DecidableEq, Repr

/-- Observable outcome of one do_POST of proxy-download.py: the status
sent, whether it went through send_error, the download headers sent, the
body chunks written, and how many upstream GETs were issued. -/
structure PResult where
  status : Nat
  errorPage : Bool
  headers : List (String × String)
  bodyChunks : List (List Nat)
  fetches : Nat
deriving DecidableEq, Repr

/-- Extraction of download_url and filename from the request body
(proxy-download.py lines 13-22): dict.get on the JSON dict; on the form
dict, the first value of the key or None (parse_qs values are nonempty
lists; an empty list is modelled as the absent case). -/
def proxyParse : PReq → PyV × PyV
  | .jsonBody data =>
    ((data.lookup "download_url").getD .pnone,
     (data.lookup "filename").getD (.pstr "video.mp4"))
  | .formBody pairs =>
    (match pairs.lookup "download_url" with
     | some (v :: _) => .pstr v
     | _ => .pnone,
     match pairs.lookup "filename" with
     | some (v :: _) => .pstr v
     | _ => .pstr "video.mp4")

/-- do_POST of proxy-download.py: a falsy download_url gives
send_error 400 before any fetch; a non-string filename raises in re.sub
before any fetch (TypeError, caught as a 500); then one streamed GET —
an exception gives send_error 500; a non-200 upstream status is relayed
through send_error with no body chunks; a 200 upstream response gives
the fixed video/mp4 content type, the sanitized filename in the
attachment header, the upstream Content-Length when present, and the
nonempty chunks copied through. -/
def proxyPOST (req : PReq) (up : Upstream) : PResult :=
  let parsed := proxyParse req
  if parsed.1.truthy = false then ⟨400, true, [], [], 0⟩
  else
    match parsed.2 with
    | .pstr fn =>
      let clean := sanitizeFilename fn
      match up with
      | .exc _ => ⟨500, true, [], [], 1⟩
      | .resp st cl chunks =>
        if st ≠ 200 then ⟨st, true, [], [], 1⟩
        else
          ⟨200, false,
           [("Content-Type", "video/mp4"),
            ("Content-Disposition", "attachment; filename=\"" ++ clean ++ "\"")] ++
             (match cl with | some c => [("Content-Length", c)] | none => []),
           chunks.filter (fun c => !c.isEmpty),
           1⟩
    | _ => ⟨500, true, [], [], 0⟩

/-
  Concrete values used by counterexamples and witnesses.
-/

/-- A format with ext mp4 and both codecs set but no url. -/
def fmtA : Format :=
  ⟨some "mp4", none, some "avc1", some "mp4a.40.2", none, none, none, none⟩

/-- A webm format with a url and a video codec. -/
def fmtB : Format :=
  ⟨some "webm", some "http://media.example/v.webm", some "vp9", none,
   none, none, none, none⟩

/-- A format satisfying the full mp4 selection predicate. -/
def fmtC : Format :=
  ⟨some "mp4", some "http://media.example/v.mp4", some "avc1", some "mp4a.40.2",
   none, none, none, none⟩

/-- An extractor info dict whose uploader key is present with value
None. -/
def infoNullUploader : Info := ⟨[("uploader", .pnone)], []⟩

/-
  Helper lemmas (shared).
-/

/-- An error body is exactly the one-key error object and carries no
success flag. -/
def errSafe (obj : JObj) : Prop :=
  obj.lookup "error" ≠ none →
    (∃ m, obj = errObj m) ∧ obj.lookup "success" = none

theorem errSafe_errObj (m : String) : errSafe (errObj m) :=
  fun _ => ⟨⟨m, rfl⟩, rfl⟩

theorem errSafe_runInfo (url : String) (ex : Extract) :
    errSafe (runInfo url ex) := by
  unfold runInfo
  cases ex with
  | noneInfo => exact errSafe_errObj _
  | dlErr m => exact errSafe_errObj _
  | exc m => exact errSafe_errObj _
  | ok i =>
    rcases hd : durationOf i with m | d
    · simp only [hd]
      exact errSafe_errObj _
    · simp only [hd]
      intro hc
      exact absurd rfl hc

theorem errSafe_runGetUrl (ex : Extract) : errSafe (runGetUrl ex) := by
  unfold runGetUrl
  cases ex with
  | noneInfo => exact errSafe_errObj _
  | dlErr m => exact errSafe_errObj _
  | exc m => exact errSafe_errObj _
  | ok i =>
    rcases hs : selectDlFormat i.formats with _ | f
    · simp only [hs]
      exact errSafe_errObj _
    · simp only [hs]
      intro hc
      exact absurd rfl hc

theorem handleData_cases (data : List (String × PyV)) (ex : Extract) :
    (handleData data ex).status = 200 ∧
      ∀ obj, (handleData data ex).body = some obj → errSafe obj := by
  unfold handleData
  split
  · exact ⟨rfl, fun obj hobj => by
      injection hobj with h
      subst h
      exact errSafe_errObj _⟩
  · split
    · exact ⟨rfl, fun obj hobj => by
        injection hobj with h
        subst h
        exact errSafe_errObj _⟩
    · split
      · exact ⟨rfl, fun obj hobj => by
          injection hobj with h
          subst h
          exact errSafe_errObj _⟩
      · dsimp only
        split
        · exact ⟨rfl, fun obj hobj => by
            injection hobj with h
            subst h
            exact errSafe_runInfo _ _⟩
        · split
          · exact ⟨rfl, fun obj hobj => by
              injection hobj with h
              subst h
              exact errSafe_runGetUrl _⟩
          · exact ⟨rfl, fun obj hobj => by cases hobj⟩

/-- The first element of a list satisfying a predicate, when that
element is the unique satisfier of the predicate in the list. -/
theorem find_of_unique {α : Type} (p : α → Bool) (l : List α) (a : α)
    (hmem : a ∈ l) (hpa : p a = true)
    (huniq : ∀ b ∈ l, p b = true → b = a) : l.find? p = some a := by
  induction l with
  | nil => cases hmem
  | cons x xs ih =>
    by_cases hx : p x = true
    · rw [List.find?_cons_of_pos _ hx]
      rw [huniq x (List.mem_cons_self x xs) hx]
    · rw [List.find?_cons_of_neg _ (by simp [hx])]
      rcases List.mem_cons.mp hmem with rfl | hmem'
      · exact absurd hpa hx
      · exact ih hmem' fun b hb hpb => huniq b (List.mem_cons_of_mem _ hb) hpb

theorem isMp4Full_isVideoFormat (f : Format) (h : isMp4Full f = true) :
    isVideoFormat f = true := by
  unfold isMp4Full at h
  unfold isVideoFormat
  simp only [Bool.and_eq_true] at h ⊢
  exact ⟨h.1.1.2, h.1.2⟩

/-
  Claim theorems.
-/

/-- C1 (counterexample): the sanitizer keeps a tab character, which lies
outside the spec's claimed character set, so the sanitized filename can
contain characters outside [A-Za-z0-9 space hyphen underscore dot]. -/
theorem C1_counterexample :
    sanitizeFilename "a\tb.mp4" = "a\tb.mp4" ∧
      '\t' ∈ (sanitizeFilename "a\tb.mp4").data ∧
      specAllowedChar '\t' = false := by
  decide

/-- C1 (amended): every character of the sanitized filename lies in the
character class actually kept by the regex — letters, digits, any
whitespace character, hyphen, underscore, dot — every character outside
that class having been replaced by an underscore. -/
theorem C1_sanitized_chars (s : String) (c : Char)
    (h : c ∈ (sanitizeFilename s).data) : allowedChar c = true := by
  unfold sanitizeFilename at h
  simp only [List.mem_map] at h
  obtain ⟨a, _, ha⟩ := h
  by_cases hc : allowedChar a = true
  · rw [← ha]; simp [hc]
  · rw [← ha]; simp [hc]; decide

/-- C1 (witness): instantiation of the amended sanitization theorem at a
concrete filename and character. -/
theorem C1_witness : allowedChar 'a' = true :=
  C1_sanitized_chars "a!b" 'a' (by decide)

/-- C2 (counterexample): the sanitizer keeps the space of
"My Video!@#.mp4", so the output is not "My_Video___.mp4". -/
theorem C2_counterexample :
    sanitizeFilename "My Video!@#.mp4" ≠ "My_Video___.mp4" := by
  decide

/-- C2 (amended): the sanitizer maps "My Video!@#.mp4" to
"My Video___.mp4" — the space is kept, the three punctuation characters
become underscores. -/
theorem C2_sanitize_example :
    sanitizeFilename "My Video!@#.mp4" = "My Video___.mp4" := by
  decide

/-- C3 (counterexample): fmtA is the only entry of [fmtA, fmtB] with ext
mp4 and both codec fields set to real codecs, yet the get_download_url
selection picks fmtB, because fmtA carries no url and so fails the first
loop's url condition. -/
theorem C3_counterexample :
    (fmtA.ext = some "mp4" ∧ fmtA.vcodec ≠ some "none" ∧ fmtA.vcodec ≠ none ∧
        fmtA.acodec ≠ some "none" ∧ fmtA.acodec ≠ none) ∧
      fmtB.ext ≠ some "mp4" ∧
      selectDlFormat [fmtA, fmtB] = some fmtB ∧ fmtB ≠ fmtA := by
  decide

/-- C3 (amended): when exactly one entry of the format list satisfies
the full selection predicate — ext mp4, url present and nonempty, vcodec
and acodec both different from the string none (absent codec fields
passing) — the get_download_url selection returns exactly that entry,
regardless of its position; and the selection reports no suitable format
(returns nothing) exactly when no entry has a url and a video codec. -/
theorem C3_unique_selection (fs : List Format) (f : Format)
    (hmem : f ∈ fs) (hf : isMp4Full f = true)
    (huniq : ∀ g ∈ fs, isMp4Full g = true → g = f) :
    selectDlFormat fs = some f ∧
      ∀ gs : List Format,
        (selectDlFormat gs = none ↔ ∀ g ∈ gs, isVideoFormat g = false) := by
  constructor
  · unfold selectDlFormat
    have hfind : fs.reverse.find? isMp4Full = some f :=
      find_of_unique _ _ _ (List.mem_reverse.mpr hmem) hf
        fun b hb => huniq b (List.mem_reverse.mp hb)
    rw [hfind]
  · intro gs
    unfold selectDlFormat
    constructor
    · intro h g hg
      cases hfind : gs.reverse.find? isMp4Full with
      | some x => rw [hfind] at h; cases h
      | none =>
        rw [hfind] at h
        have := List.find?_eq_none.mp h g (List.mem_reverse.mpr hg)
        simpa using this
    · intro h
      have h2 : gs.reverse.find? isMp4Full = none :=
        List.find?_eq_none.mpr fun g hg hfull =>
          by
            have hv := h g (List.mem_reverse.mp hg)
            rw [isMp4Full_isVideoFormat g hfull] at hv
            cases hv
      have h1 : gs.reverse.find? isVideoFormat = none :=
        List.find?_eq_none.mpr fun g hg hvf =>
          by
            have hv := h g (List.mem_reverse.mp hg)
            rw [hvf] at hv
            cases hv
      rw [h2, h1]

/-- C3 (witness): instantiation of the amended selection theorem at a
two-element format list whose unique full mp4 entry is fmtC. -/
theorem C3_witness : selectDlFormat [fmtC, fmtB] = some fmtC :=
  (C3_unique_selection [fmtC, fmtB] fmtC (by decide) (by decide)
    (by decide)).1

/-- C4 (confirmed): every response of the info handler carries HTTP
status 200 — the status line is sent before the body logic runs — and
every body containing an error key is exactly the one-key error object,
with no success flag. -/
theorem C4_http200 (req : ReqBody) (ex : Extract) :
    (doPOST req ex).status = 200 ∧
      ∀ obj, (doPOST req ex).body = some obj →
        obj.lookup "error" ≠ none →
          (∃ m, obj = errObj m) ∧ obj.lookup "success" = none := by
  cases req with
  | badJson m =>
    exact ⟨rfl, fun obj hobj => by
      injection hobj with h
      subst h
      exact errSafe_errObj _⟩
  | jsonData data =>
    have h := handleData_cases data ex
    exact ⟨h.1, fun obj hobj => h.2 obj hobj⟩

/-- C4 (witness): instantiation of the status theorem at a request whose
JSON body fails to parse. -/
theorem C4_witness :
    (doPOST (.badJson "boom") .noneInfo).status = 200 ∧
      ((∃ m, errObj "Server error: boom" = errObj m) ∧
        (errObj "Server error: boom").lookup "success" = none) :=
  ⟨(C4_http200 (.badJson "boom") .noneInfo).1,
   (C4_http200 (.badJson "boom") .noneInfo).2 (errObj "Server error: boom")
     rfl (by decide)⟩

/-- C5 (counterexample): an extractor info dict whose uploader key is
present with value None yields a video_info object whose uploader key is
null — so a key of the success response can be null. -/
theorem C5_counterexample :
    (runInfo "u" (.ok infoNullUploader)).lookup "video_info" =
        some (.node (videoInfoObj "u" infoNullUploader "Unknown")) ∧
      (videoInfoObj "u" infoNullUploader "Unknown").lookup "uploader" =
        some JVal.jnull := by
  exact ⟨rfl, rfl⟩

/-- C5 (amended): the video_info object always carries exactly the seven
keys title, duration, thumbnail, uploader, video_id, download_url and
filesize; a field absent from the extractor output is replaced by its
sentinel (Unknown Title, empty string, Unknown), download_url falling
back to the webpage_url field and then to the request url — but a field
the extractor supplies as null passes through as null. -/
theorem C5_video_info_defaults (url : String) (i : Info) (d : String) :
    (videoInfoObj url i d).map Prod.fst =
        ["title", "duration", "thumbnail", "uploader", "video_id",
         "download_url", "filesize"] ∧
      (videoInfoObj url i d).lookup "duration" = some (.jstr d) ∧
      (i.fields.lookup "title" = none →
        (videoInfoObj url i d).lookup "title" = some (.jstr "Unknown Title")) ∧
      (i.fields.lookup "thumbnail" = none →
        (videoInfoObj url i d).lookup "thumbnail" = some (.jstr "")) ∧
      (i.fields.lookup "uploader" = none →
        (videoInfoObj url i d).lookup "uploader" = some (.jstr "Unknown")) ∧
      (i.fields.lookup "id" = none →
        (videoInfoObj url i d).lookup "video_id" = some (.jstr "")) ∧
      (i.fields.lookup "filesize" = none →
        i.fields.lookup "filesize_approx" = none →
        (videoInfoObj url i d).lookup "filesize" = some (.jstr "Unknown")) ∧
      (i.formats = [] → i.fields.lookup "webpage_url" = none →
        (videoInfoObj url i d).lookup "download_url" = some (.jstr url)) := by
  refine ⟨rfl, rfl, ?_, ?_, ?_, ?_, ?_, ?_⟩
  · intro h
    unfold videoInfoObj Info.getD
    rw [h]
    rfl
  · intro h
    unfold videoInfoObj Info.getD
    rw [h]
    rfl
  · intro h
    unfold videoInfoObj Info.getD
    rw [h]
    rfl
  · intro h
    unfold videoInfoObj Info.getD
    rw [h]
    rfl
  · intro h1 h2
    unfold videoInfoObj Info.getD
    rw [h1, h2]
    rfl
  · intro hf hw
    unfold videoInfoObj Info.getD selectInfoUrl selectInfoFormat
    rw [hf, hw]
    rfl

/-- C5 (witness): instantiation of the defaults theorem at the empty
extractor info dict. -/
theorem C5_witness :
    (videoInfoObj "u" ⟨[], []⟩ "Unknown").lookup "uploader" =
        some (.jstr "Unknown") ∧
      (videoInfoObj "u" ⟨[], []⟩ "Unknown").lookup "download_url" =
        some (.jstr "u") := by
  have h := C5_video_info_defaults "u" ⟨[], []⟩ "Unknown"
  exact ⟨h.2.2.2.2.1 rfl, h.2.2.2.2.2.2.2 rfl rfl⟩

/-- C6 (confirmed): a url whose stripped value is nonempty but fails the
YouTube allow-pattern draws the Invalid YouTube URL error body, with no
sleep and no call into the extraction dependency. -/
theorem C6_invalid_url (data : List (String × PyV)) (ex : Extract)
    (u : String) (hl : data.lookup "url" = some (.pstr u))
    (hne : pyStrip u ≠ "") (hm : ytMatch (pyStrip u) = false) :
    doPOST (.jsonData data) ex =
      ⟨200, some (errObj "Invalid YouTube URL"), false, false⟩ := by
  show handleData data ex = _
  unfold handleData
  rw [hl]
  simp only [Option.getD_some, stripUrl]
  rw [if_neg hne, if_pos hm]

/-- C6 (witness): instantiation of the invalid-url theorem at a non
YouTube url. -/
theorem C6_witness :
    doPOST (.jsonData [("url", .pstr "https://example.com/x")]) .noneInfo =
      ⟨200, some (errObj "Invalid YouTube URL"), false, false⟩ :=
  C6_invalid_url _ _ "https://example.com/x" rfl (by decide) (by decide)

/-- C7 (confirmed): when the single upstream GET of the proxy handler
returns a status other than 200, the handler relays exactly that status
through send_error, writes no body chunks, and issued exactly one
fetch. -/
theorem C7_upstream_relay (req : PReq) (st : Nat) (cl : Option String)
    (chunks : List (List Nat)) (hst : st ≠ 200)
    (hf : (proxyPOST req (.resp st cl chunks)).fetches = 1) :
    proxyPOST req (.resp st cl chunks) = ⟨st, true, [], [], 1⟩ := by
  unfold proxyPOST at hf ⊢
  by_cases hdl : (proxyParse req).1.truthy = false
  · rw [if_pos hdl] at hf
    cases hf
  · rw [if_neg hdl] at hf ⊢
    revert hf
    rcases (proxyParse req).2 with _ | fn | n
    · intro hf
      cases hf
    · intro hf
      dsimp only
      rw [if_pos hst]
    · intro hf
      cases hf

/-- C7 (witness): instantiation of the relay theorem at a 404 upstream
response. -/
theorem C7_witness :
    proxyPOST (.jsonBody [("download_url", .pstr "http://u")])
        (.resp 404 none [[7]]) = ⟨404, true, [], [], 1⟩ :=
  C7_upstream_relay _ 404 none [[7]] (by decide) rfl

/-- C8 (confirmed): a nonzero integer duration d is formatted as the
floor quotient by 60, a colon, and the nonnegative remainder zero-padded
to two digits (Python floor division and modulo); a zero duration and an
absent duration field give the literal Unknown. -/
theorem C8_duration_format :
    (∀ n : Int, n ≠ 0 →
        formatDuration (.pint n) =
          .ok (toString (Int.fdiv n 60) ++ ":" ++ pad2 (Int.fmod n 60))) ∧
      formatDuration (.pint 0) = .ok "Unknown" ∧
      ∀ i : Info, i.fields.lookup "duration" = none →
        durationOf i = .ok "Unknown" := by
  refine ⟨fun n hn => ?_, rfl, fun i hi => ?_⟩
  · unfold formatDuration
    simp [PyV.truthy, hn]
  · unfold durationOf Info.getD
    rw [hi]
    rfl

/-- C8 (witness): 125 seconds format as 2:05 by the theorem; 0 and an
absent duration give Unknown. -/
theorem C8_witness :
    formatDuration (.pint 125) = .ok "2:05" ∧
      durationOf ⟨[], []⟩ = .ok "Unknown" := by
  constructor
  · rw [C8_duration_format.1 125 (by decide)]
    rfl
  · exact C8_duration_format.2.2 ⟨[], []⟩ rfl

/-- C9 (confirmed): a missing url key, or a url that strips to the empty
string, draws the URL is required error body before the pattern check,
the delay and any extraction call. -/
theorem C9_url_required (data : List (String × PyV)) (ex : Extract)
    (h : data.lookup "url" = none ∨
      ∃ u, data.lookup "url" = some (.pstr u) ∧ pyStrip u = "") :
    doPOST (.jsonData data) ex =
      ⟨200, some (errObj "URL is required"), false, false⟩ := by
  show handleData data ex = _
  unfold handleData
  rcases h with h | ⟨u, hl, hu⟩
  · rw [h]
    rfl
  · rw [hl]
    simp only [Option.getD_some, stripUrl]
    rw [if_pos hu]

/-- C9 (witness): instantiation of the required-url theorem at a body
with no url key and at a whitespace-only url. -/
theorem C9_witness :
    doPOST (.jsonData [("url", .pstr " \t ")]) .noneInfo =
      ⟨200, some (errObj "URL is required"), false, false⟩ :=
  C9_url_required _ .noneInfo (Or.inr ⟨" \t ", rfl, by decide⟩)

/-- C10 (confirmed): a valid matching url with an action value equal to
neither info nor get_download_url draws status 200 with no body written
at all — no success payload and no error object — the pre-extraction
delay having run and the extraction dependency never invoked. -/
theorem C10_unknown_action (data : List (String × PyV)) (ex : Extract)
    (u : String) (a : PyV)
    (hu : data.lookup "url" = some (.pstr u)) (hne : pyStrip u ≠ "")
    (hm : ytMatch (pyStrip u) = true)
    (ha : data.lookup "action" = some a)
    (h1 : a ≠ .pstr "info") (h2 : a ≠ .pstr "get_download_url") :
    doPOST (.jsonData data) ex = ⟨200, none, true, false⟩ := by
  show handleData data ex = _
  unfold handleData
  rw [hu]
  simp only [Option.getD_some, stripUrl]
  rw [if_neg hne, if_neg (by simp [hm]), ha]
  simp only [Option.getD_some]
  rw [if_neg h1, if_neg h2]

/-- C10 (witness): instantiation of the unknown-action theorem at the
action value download. -/
theorem C10_witness :
    doPOST (.jsonData [("url", .pstr "https://youtu.be/x"),
        ("action", .pstr "download")]) .noneInfo = ⟨200, none, true, false⟩ :=
  C10_unknown_action _ .noneInfo "https://youtu.be/x" (.pstr "download")
    rfl (by decide) (by decide) rfl (by decide) (by decide)

end YTDL
